import Mathlib

/-!
Verification of `pymongo/max_staleness_selectors.py`: the max-staleness
stage of replica-set server selection.  The module filters a `Selection`
snapshot, dropping secondaries whose estimated staleness exceeds the
caller's `maxStalenessSeconds` bound.  Timestamps and durations are
modelled as integers (seconds).
-/

/-- Modelled from the spec: `SERVER_TYPE` (`pymongo/server_type.py`, not under
`src/`) — the tagged variant of member kinds.  Only `RSPrimary` and
`RSSecondary` participate in staleness logic. -/
inductive ServerType where
  | Unknown
  | Mongos
  | PossiblePrimary
  | RSPrimary
  | RSSecondary
  | RSArbiter
  | RSOther
  | RSGhost
  | Standalone
  deriving DecidableEq, Repr

/-- Modelled from the spec: a `ServerDescription` (`pymongo/server_description.py`,
not under `src/`) — an immutable snapshot of one replica member, holding the
fields the staleness stage reads: `serverType`, `lastUpdateTime`,
`lastWriteDate` and `idleWritePeriod` (all times in seconds). -/
structure ServerDescription where
  server_type : ServerType
  last_update_time : Int
  last_write_date : Int
  idle_write_period : Int
  deriving DecidableEq, Repr

/-- Modelled from the spec: a `Selection` (`pymongo/server_selectors.py`, not
under `src/`) — an immutable value holding the member snapshot list and the
configured `heartbeatFrequency` (seconds). -/
structure Selection where
  server_descriptions : List ServerDescription
  heartbeat_frequency : Int
  deriving DecidableEq, Repr

/-- Modelled from the spec: the derived reference to the primary description
if one exists. -/
def Selection.primary (sel : Selection) : Option ServerDescription :=
  sel.server_descriptions.find? (fun s => s.server_type = ServerType.RSPrimary)

/-- Modelled from the spec: the copy-on-filter constructor — a new `Selection`
carrying a different member subset but the same `heartbeatFrequency`. -/
def Selection.with_server_descriptions (sel : Selection)
    (sds : List ServerDescription) : Selection :=
  { server_descriptions := sds, heartbeat_frequency := sel.heartbeat_frequency }

/-- Python's `max(xs, key := k)` over a nonempty list: scans left to right and
replaces the current best only on a strictly greater key, so the first
maximal element is returned; `none` on the empty list. -/
def pyMaxBy (key : ServerDescription → Int) :
    List ServerDescription → Option ServerDescription
  | [] => none
  | s :: rest => some (rest.foldl (fun acc x => if key acc < key x then x else acc) s)

/-- The members of `sel` whose `serverType` is `RSSecondary`. -/
def Selection.secondaries (sel : Selection) : List ServerDescription :=
  sel.server_descriptions.filter (fun s => s.server_type = ServerType.RSSecondary)

/-- Modelled from the spec: the secondary with greatest `lastWriteDate`,
`none` when there is no secondary. -/
def Selection.secondary_with_max_last_write_date (sel : Selection) :
    Option ServerDescription :=
  pyMaxBy (fun s => s.last_write_date) sel.secondaries

/-- Modelled from the spec: the secondary with greatest `lastUpdateTime`,
`none` when there is no secondary. -/
def Selection.secondary_with_max_last_update_time (sel : Selection) :
    Option ServerDescription :=
  pyMaxBy (fun s => s.last_update_time) sel.secondaries

/-- Errors the staleness stage can surface: the user-facing
`ConfigurationError` (carrying the message's numeric arguments:
`idle_write_period`, `max_staleness`, `heartbeat_frequency * 1000`), and a
fatal `AssertionError` for the source's internal `assert` statements. -/
inductive DriverError where
  | ConfigurationError (idle_write_period max_staleness heartbeat_ms : Int)
  | AssertionError
  deriving DecidableEq, Repr

/-- `_validate_max_staleness`: raise a `ConfigurationError` when
`max_staleness < heartbeat_frequency + idle_write_period`. -/
def _validate_max_staleness (max_staleness heartbeat_frequency
    idle_write_period : Int) : Except DriverError Unit :=
  if max_staleness < heartbeat_frequency + idle_write_period then
    .error (.ConfigurationError idle_write_period max_staleness
      (heartbeat_frequency * 1000))
  else
    .ok ()

/-- The known-primary staleness estimate for a secondary `s`:
`(s.lastUpdateTime − s.lastWriteDate) − (P.lastUpdateTime − P.lastWriteDate)
+ heartbeatFrequency`. -/
def stalenessWithPrimary (primary s : ServerDescription)
    (heartbeat_frequency : Int) : Int :=
  (s.last_update_time - s.last_write_date)
    - (primary.last_update_time - primary.last_write_date)
    + heartbeat_frequency

/-- `_with_primary`: apply `max_staleness`, in seconds, to a `Selection` with
a known primary.  Validates the bound against the primary's idle-write
period, then keeps every non-secondary and every secondary whose estimated
staleness is at most the bound. -/
def _with_primary (max_staleness : Int) (selection : Selection) :
    Except DriverError Selection :=
  match selection.primary with
  | none => .error .AssertionError
  | some primary =>
    match _validate_max_staleness max_staleness selection.heartbeat_frequency
        primary.idle_write_period with
    | .error e => .error e
    | .ok _ =>
      .ok (selection.with_server_descriptions
        (selection.server_descriptions.filter (fun s =>
          if s.server_type = ServerType.RSSecondary then
            decide (stalenessWithPrimary primary s selection.heartbeat_frequency
              ≤ max_staleness)
          else
            true)))

/-- The body of `_no_primary` once the reference secondaries have been
chosen: validate against `srecent.idle_write_period`, then keep every
non-secondary and every secondary `s` with
`smax.lastWriteDate − s.lastWriteDate + heartbeatFrequency ≤ max_staleness`. -/
def _no_primary_with (max_staleness : Int) (selection : Selection)
    (smax srecent : ServerDescription) : Except DriverError Selection :=
  match _validate_max_staleness max_staleness selection.heartbeat_frequency
      srecent.idle_write_period with
  | .error e => .error e
  | .ok _ =>
    .ok (selection.with_server_descriptions
      (selection.server_descriptions.filter (fun s =>
        if s.server_type = ServerType.RSSecondary then
          decide (smax.last_write_date - s.last_write_date
            + selection.heartbeat_frequency ≤ max_staleness)
        else
          true)))

/-- `_no_primary`: apply `max_staleness`, in seconds, to a `Selection` with
no known primary.  With no secondary at all it short-circuits to an empty
member set; otherwise it picks `smax` (greatest `lastWriteDate`) and
`srecent` (greatest `lastUpdateTime`) and runs the filter body. -/
def _no_primary (max_staleness : Int) (selection : Selection) :
    Except DriverError Selection :=
  match selection.secondary_with_max_last_write_date with
  | none => .ok (selection.with_server_descriptions [])
  | some smax =>
    match selection.secondary_with_max_last_update_time with
    | none => .error .AssertionError
    | some srecent => _no_primary_with max_staleness selection smax srecent

/-- `select`: apply `max_staleness` to a `Selection`.  A falsy bound
(`none`, i.e. unset, or `0`) disables the stage and returns the input
unchanged; otherwise dispatch on whether the snapshot has a primary. -/
def select (max_staleness : Option Int) (selection : Selection) :
    Except DriverError Selection :=
  match max_staleness with
  | none => .ok selection
  | some m =>
    if m = 0 then
      .ok selection
    else
      match selection.primary with
      | some _ => _with_primary m selection
      | none => _no_primary m selection

/-! ### Properties of the Python-style maximum -/

theorem pyFold_mem (key : ServerDescription → Int) :
    ∀ (l : List ServerDescription) (a : ServerDescription),
      l.foldl (fun acc x => if key acc < key x then x else acc) a ∈ a :: l := by
  intro l
  induction l with
  | nil => intro a; simp
  | cons x xs ih =>
    intro a
    simp only [List.foldl_cons]
    rcases List.mem_cons.mp (ih (if key a < key x then x else a)) with h1 | h1
    · rw [h1]
      by_cases hk : key a < key x
      · simp [hk]
      · simp [hk]
    · exact List.mem_cons_of_mem _ (List.mem_cons_of_mem _ h1)

theorem pyFold_le (key : ServerDescription → Int) :
    ∀ (l : List ServerDescription) (a : ServerDescription),
      key a ≤ key (l.foldl (fun acc x => if key acc < key x then x else acc) a)
      ∧ ∀ x ∈ l,
          key x ≤ key (l.foldl (fun acc x => if key acc < key x then x else acc) a) := by
  intro l
  induction l with
  | nil => intro a; simp
  | cons x xs ih =>
    intro a
    simp only [List.foldl_cons]
    have hax : key a ≤ key (if key a < key x then x else a)
        ∧ key x ≤ key (if key a < key x then x else a) := by
      by_cases hk : key a < key x
      · simp only [if_pos hk]
        exact ⟨le_of_lt hk, le_refl _⟩
      · simp only [if_neg hk]
        exact ⟨le_refl _, le_of_not_lt hk⟩
    have h := ih (if key a < key x then x else a)
    refine ⟨le_trans hax.1 h.1, ?_⟩
    intro y hy
    rcases List.mem_cons.mp hy with rfl | hy'
    · exact le_trans hax.2 h.1
    · exact h.2 y hy'

theorem pyMaxBy_spec (key : ServerDescription → Int) (l : List ServerDescription)
    (m : ServerDescription) (h : pyMaxBy key l = some m) :
    m ∈ l ∧ ∀ x ∈ l, key x ≤ key m := by
  cases l with
  | nil => simp [pyMaxBy] at h
  | cons s rest =>
    simp only [pyMaxBy, Option.some.injEq] at h
    subst h
    refine ⟨pyFold_mem key rest s, ?_⟩
    intro x hx
    rcases List.mem_cons.mp hx with rfl | hx'
    · exact (pyFold_le key rest _).1
    · exact (pyFold_le key rest s).2 x hx'

theorem pyMaxBy_ne_none (key : ServerDescription → Int) (s : ServerDescription)
    (l : List ServerDescription) (h : s ∈ l) : ∃ m, pyMaxBy key l = some m := by
  cases l with
  | nil => simp at h
  | cons a rest => exact ⟨_, rfl⟩

/-! ### Basic facts about `Selection` accessors -/

theorem mem_secondaries (sel : Selection) (s : ServerDescription) :
    s ∈ sel.secondaries ↔
      s ∈ sel.server_descriptions ∧ s.server_type = ServerType.RSSecondary := by
  simp [Selection.secondaries, List.mem_filter]

theorem primary_mem (sel : Selection) (P : ServerDescription)
    (h : sel.primary = some P) : P ∈ sel.server_descriptions :=
  List.mem_of_find?_eq_some h

/-! ### Characterizations of the validator and the two filters -/

theorem validate_ok_iff (m hb idle : Int) :
    _validate_max_staleness m hb idle = .ok () ↔ ¬ m < hb + idle := by
  by_cases h : m < hb + idle
  · simp [_validate_max_staleness, h]
  · simp [_validate_max_staleness, h]

theorem validate_error_iff (m hb idle : Int) :
    _validate_max_staleness m hb idle
      = .error (.ConfigurationError idle m (hb * 1000)) ↔ m < hb + idle := by
  by_cases h : m < hb + idle
  · simp [_validate_max_staleness, h]
  · simp [_validate_max_staleness, h]

theorem _with_primary_ok_elim (m : Int) (sel sel' : Selection)
    (P : ServerDescription) (hP : sel.primary = some P)
    (hok : _with_primary m sel = .ok sel') :
    ¬ m < sel.heartbeat_frequency + P.idle_write_period
    ∧ sel' = sel.with_server_descriptions (sel.server_descriptions.filter (fun s =>
        if s.server_type = ServerType.RSSecondary then
          decide (stalenessWithPrimary P s sel.heartbeat_frequency ≤ m)
        else true)) := by
  simp only [_with_primary, hP] at hok
  cases hv : _validate_max_staleness m sel.heartbeat_frequency P.idle_write_period with
  | error e => simp only [hv] at hok; exact Except.noConfusion hok
  | ok u =>
    simp only [hv, Except.ok.injEq] at hok
    cases u
    exact ⟨(validate_ok_iff m sel.heartbeat_frequency P.idle_write_period).mp hv,
      hok.symm⟩

theorem _with_primary_error_of_lt (m : Int) (sel : Selection)
    (P : ServerDescription) (hP : sel.primary = some P)
    (h : m < sel.heartbeat_frequency + P.idle_write_period) :
    _with_primary m sel = .error (.ConfigurationError P.idle_write_period m
      (sel.heartbeat_frequency * 1000)) := by
  simp only [_with_primary, hP,
    (validate_error_iff m sel.heartbeat_frequency P.idle_write_period).mpr h]

theorem _no_primary_with_ok_elim (m : Int) (sel sel' : Selection)
    (smax srecent : ServerDescription)
    (hok : _no_primary_with m sel smax srecent = .ok sel') :
    ¬ m < sel.heartbeat_frequency + srecent.idle_write_period
    ∧ sel' = sel.with_server_descriptions (sel.server_descriptions.filter (fun s =>
        if s.server_type = ServerType.RSSecondary then
          decide (smax.last_write_date - s.last_write_date
            + sel.heartbeat_frequency ≤ m)
        else true)) := by
  simp only [_no_primary_with] at hok
  cases hv : _validate_max_staleness m sel.heartbeat_frequency
      srecent.idle_write_period with
  | error e => simp only [hv] at hok; exact Except.noConfusion hok
  | ok u =>
    simp only [hv, Except.ok.injEq] at hok
    cases u
    exact ⟨(validate_ok_iff m sel.heartbeat_frequency
      srecent.idle_write_period).mp hv, hok.symm⟩

theorem _no_primary_eq_with (m : Int) (sel : Selection)
    (smax : ServerDescription)
    (hmax : sel.secondary_with_max_last_write_date = some smax) :
    ∃ srecent, sel.secondary_with_max_last_update_time = some srecent
      ∧ srecent ∈ sel.secondaries
      ∧ _no_primary m sel = _no_primary_with m sel smax srecent := by
  have hs : smax ∈ sel.secondaries :=
    (pyMaxBy_spec (fun s => s.last_write_date) sel.secondaries smax hmax).1
  obtain ⟨r, hr⟩ :=
    pyMaxBy_ne_none (fun s => s.last_update_time) smax sel.secondaries hs
  have hr' : sel.secondary_with_max_last_update_time = some r := hr
  refine ⟨r, hr',
    (pyMaxBy_spec (fun s => s.last_update_time) sel.secondaries r hr).1, ?_⟩
  simp only [_no_primary, hmax, hr']

/-! ### Claim theorems -/

/-- C1: Known-primary filter — when the primary `P` is present and bound
validation does not raise, a member `S` of server type `RSSecondary` is kept
by `_with_primary` iff
`(S.lastUpdateTime − S.lastWriteDate) − (P.lastUpdateTime − P.lastWriteDate)
+ heartbeatFrequency ≤ maxStaleness`. -/
theorem c1_with_primary_keeps_secondary_iff (m : Int) (sel : Selection)
    (P : ServerDescription) (hP : sel.primary = some P)
    (sel' : Selection) (hok : _with_primary m sel = .ok sel')
    (S : ServerDescription) (hmem : S ∈ sel.server_descriptions)
    (hsec : S.server_type = ServerType.RSSecondary) :
    S ∈ sel'.server_descriptions ↔
      (S.last_update_time - S.last_write_date)
        - (P.last_update_time - P.last_write_date)
        + sel.heartbeat_frequency ≤ m := by
  obtain ⟨-, rfl⟩ := _with_primary_ok_elim m sel sel' P hP hok
  simp only [Selection.with_server_descriptions, List.mem_filter, hsec,
    if_true, decide_eq_true_eq, stalenessWithPrimary, hmem, true_and]

/-- Witness for C1 (spec scenario 2 with a feasible idle-write period):
heartbeat 10, primary lag 1, secondary lag 5, bound 15 — staleness 14 ≤ 15,
the secondary is kept. -/
theorem c1_witness :
    ServerDescription.mk ServerType.RSSecondary 5 0 5 ∈
      (Selection.mk [ServerDescription.mk ServerType.RSPrimary 1 0 5,
          ServerDescription.mk ServerType.RSSecondary 5 0 5]
        10).server_descriptions
      ↔ (5 - 0) - (1 - 0) + 10 ≤ (15 : Int) :=
  c1_with_primary_keeps_secondary_iff 15
    (Selection.mk [ServerDescription.mk ServerType.RSPrimary 1 0 5,
        ServerDescription.mk ServerType.RSSecondary 5 0 5] 10)
    (ServerDescription.mk ServerType.RSPrimary 1 0 5) (by rfl)
    (Selection.mk [ServerDescription.mk ServerType.RSPrimary 1 0 5,
        ServerDescription.mk ServerType.RSSecondary 5 0 5] 10) (by rfl)
    (ServerDescription.mk ServerType.RSSecondary 5 0 5) (by decide) (by rfl)

/-- C3: Bound validator — for non-negative inputs,
`_validate_max_staleness` raises a `ConfigurationError` iff
`max_staleness < heartbeat_frequency + idle_write_period`; equality
passes without error. -/
theorem c3_validate_error_iff (m hb idle : Int)
    (hm : 0 ≤ m) (hhb : 0 ≤ hb) (hidle : 0 ≤ idle) :
    ((∃ a b c, _validate_max_staleness m hb idle
        = .error (.ConfigurationError a b c)) ↔ m < hb + idle)
    ∧ (m = hb + idle → _validate_max_staleness m hb idle = .ok ()) := by
  constructor
  · constructor
    · rintro ⟨a, b, c, h⟩
      by_contra hlt
      rw [(validate_ok_iff m hb idle).mpr hlt] at h
      exact Except.noConfusion h
    · intro hlt
      exact ⟨idle, m, hb * 1000, (validate_error_iff m hb idle).mpr hlt⟩
  · intro heq
    exact (validate_ok_iff m hb idle).mpr (by omega)

/-- Witness for C3 at the equality boundary `20 = 10 + 10`. -/
theorem c3_witness :
    ((∃ a b c, _validate_max_staleness 20 10 10
        = .error (.ConfigurationError a b c)) ↔ (20 : Int) < 10 + 10)
    ∧ ((20 : Int) = 10 + 10 → _validate_max_staleness 20 10 10 = .ok ()) :=
  c3_validate_error_iff 20 10 10 (by decide) (by decide) (by decide)

/-- C4: Disabled bound — a zero or unset `max_staleness` makes `select` the
identity: no validation, no filtering, for every `Selection`. -/
theorem c4_disabled_bound_identity (sel : Selection) :
    select (some 0) sel = .ok sel ∧ select none sel = .ok sel :=
  ⟨rfl, rfl⟩

/-- C2: No-primary filter — with at least one secondary and no raise, a
secondary `S` is kept by `_no_primary` iff
`SMax.lastWriteDate − S.lastWriteDate + heartbeatFrequency ≤ maxStaleness`,
for `SMax` any secondary with the greatest `lastWriteDate`. -/
theorem c2_no_primary_keeps_secondary_iff (m : Int) (sel : Selection)
    (hp : sel.primary = none)
    (SMax : ServerDescription) (hMaxMem : SMax ∈ sel.server_descriptions)
    (hMaxSec : SMax.server_type = ServerType.RSSecondary)
    (hMaxTop : ∀ t ∈ sel.server_descriptions,
      t.server_type = ServerType.RSSecondary →
        t.last_write_date ≤ SMax.last_write_date)
    (sel' : Selection) (hok : _no_primary m sel = .ok sel')
    (S : ServerDescription) (hmem : S ∈ sel.server_descriptions)
    (hsec : S.server_type = ServerType.RSSecondary) :
    S ∈ sel'.server_descriptions ↔
      SMax.last_write_date - S.last_write_date + sel.heartbeat_frequency ≤ m := by
  have hMaxSecMem : SMax ∈ sel.secondaries :=
    (mem_secondaries sel SMax).mpr ⟨hMaxMem, hMaxSec⟩
  obtain ⟨smax, hmax⟩ :=
    pyMaxBy_ne_none (fun s => s.last_write_date) SMax sel.secondaries hMaxSecMem
  obtain ⟨srecent, hrec, hrecmem, heq⟩ := _no_primary_eq_with m sel smax hmax
  rw [heq] at hok
  obtain ⟨-, rfl⟩ := _no_primary_with_ok_elim m sel sel' smax srecent hok
  have hspec := pyMaxBy_spec (fun s => s.last_write_date) sel.secondaries smax hmax
  have hsmem := (mem_secondaries sel smax).mp hspec.1
  have hlwd : smax.last_write_date = SMax.last_write_date :=
    le_antisymm (hMaxTop smax hsmem.1 hsmem.2) (hspec.2 SMax hMaxSecMem)
  simp only [Selection.with_server_descriptions, List.mem_filter, hsec,
    if_true, decide_eq_true_eq, hmem, true_and, hlwd]

/-- Witness for C2 (spec scenario 3): heartbeat 10, secondaries `A`
(lastWriteDate 0) and `B` (lastWriteDate −30), bound 45 — `B`'s staleness
40 ≤ 45, `B` is kept. -/
theorem c2_witness :
    ServerDescription.mk ServerType.RSSecondary 0 (-30) 10 ∈
      (Selection.mk [ServerDescription.mk ServerType.RSSecondary 0 0 10,
          ServerDescription.mk ServerType.RSSecondary 0 (-30) 10]
        10).server_descriptions
      ↔ (0 : Int) - (-30) + 10 ≤ 45 :=
  c2_no_primary_keeps_secondary_iff 45
    (Selection.mk [ServerDescription.mk ServerType.RSSecondary 0 0 10,
        ServerDescription.mk ServerType.RSSecondary 0 (-30) 10] 10)
    (by rfl)
    (ServerDescription.mk ServerType.RSSecondary 0 0 10)
    (by decide) (by rfl) (by decide)
    (Selection.mk [ServerDescription.mk ServerType.RSSecondary 0 0 10,
        ServerDescription.mk ServerType.RSSecondary 0 (-30) 10] 10)
    (by rfl)
    (ServerDescription.mk ServerType.RSSecondary 0 (-30) 10)
    (by decide) (by rfl)

/-- C5: No-primary degenerate case — with no primary and no secondary,
`select` with any truthy bound returns an empty member set and raises no
error. -/
theorem c5_no_primary_degenerate (m : Int) (hm : m ≠ 0) (sel : Selection)
    (hp : sel.primary = none)
    (hns : ∀ s ∈ sel.server_descriptions,
      s.server_type ≠ ServerType.RSSecondary) :
    select (some m) sel = .ok (sel.with_server_descriptions [])
    ∧ (sel.with_server_descriptions []).server_descriptions = [] := by
  have hsec : sel.secondaries = [] := by
    apply List.filter_eq_nil_iff.mpr
    intro a ha
    simpa using hns a ha
  have hnone : sel.secondary_with_max_last_write_date = none := by
    unfold Selection.secondary_with_max_last_write_date
    rw [hsec]
    rfl
  refine ⟨?_, rfl⟩
  simp only [select, if_neg hm, hp]
  simp only [_no_primary, hnone]

/-- Witness for C5: an arbiter-only snapshot with the infeasible bound −5
still yields an empty member set with no error. -/
theorem c5_witness :
    select (some (-5))
        (Selection.mk [ServerDescription.mk ServerType.RSArbiter 0 0 10] 10)
      = .ok ((Selection.mk [ServerDescription.mk ServerType.RSArbiter 0 0 10]
          10).with_server_descriptions [])
    ∧ ((Selection.mk [ServerDescription.mk ServerType.RSArbiter 0 0 10]
        10).with_server_descriptions []).server_descriptions = [] :=
  c5_no_primary_degenerate (-5) (by decide)
    (Selection.mk [ServerDescription.mk ServerType.RSArbiter 0 0 10] 10)
    (by rfl) (by decide)

/-- C6 counterexample: an arbiter-only snapshot with no primary — the
no-primary filter short-circuits to the empty member set, so the arbiter
(a non-secondary) is not retained even though the call does not raise. -/
theorem c6_counterexample :
    _no_primary 30
        (Selection.mk [ServerDescription.mk ServerType.RSArbiter 0 0 10] 10)
      = .ok (Selection.mk [] 10)
    ∧ ServerDescription.mk ServerType.RSArbiter 0 0 10 ∈
        (Selection.mk [ServerDescription.mk ServerType.RSArbiter 0 0 10]
          10).server_descriptions
    ∧ ServerDescription.mk ServerType.RSArbiter 0 0 10 ∉
        (Selection.mk ([] : List ServerDescription) 10).server_descriptions :=
  ⟨rfl, by decide, by decide⟩

/-- C6 (amended): non-secondary passthrough — a non-secondary member is
always retained by `_with_primary`; it is retained by `_no_primary`
provided the selection has at least one `RSSecondary` member (without one,
`_no_primary` short-circuits to an empty member set). -/
theorem c6_non_secondary_passthrough (m : Int) (sel : Selection)
    (s : ServerDescription) (hmem : s ∈ sel.server_descriptions)
    (hns : s.server_type ≠ ServerType.RSSecondary) :
    (∀ sel', _with_primary m sel = .ok sel' → s ∈ sel'.server_descriptions)
    ∧ (∀ sel',
        (∃ t ∈ sel.server_descriptions,
          t.server_type = ServerType.RSSecondary) →
        _no_primary m sel = .ok sel' → s ∈ sel'.server_descriptions) := by
  constructor
  · intro sel' hok
    cases hPc : sel.primary with
    | none =>
      simp only [_with_primary, hPc] at hok
      exact Except.noConfusion hok
    | some P =>
      obtain ⟨-, rfl⟩ := _with_primary_ok_elim m sel sel' P hPc hok
      simp only [Selection.with_server_descriptions, List.mem_filter]
      refine ⟨hmem, ?_⟩
      rw [if_neg hns]
  · rintro sel' ⟨t, htmem, htsec⟩ hok
    have htS : t ∈ sel.secondaries := (mem_secondaries sel t).mpr ⟨htmem, htsec⟩
    obtain ⟨smax, hmax⟩ :=
      pyMaxBy_ne_none (fun s => s.last_write_date) t sel.secondaries htS
    obtain ⟨srecent, hrec, -, heq⟩ := _no_primary_eq_with m sel smax hmax
    rw [heq] at hok
    obtain ⟨-, rfl⟩ := _no_primary_with_ok_elim m sel sel' smax srecent hok
    simp only [Selection.with_server_descriptions, List.mem_filter]
    refine ⟨hmem, ?_⟩
    rw [if_neg hns]

/-- Witness for amended C6: an arbiter in a snapshot with a primary and a
secondary is retained by both filters. -/
theorem c6_witness :
    (∀ sel', _with_primary 30
        (Selection.mk [ServerDescription.mk ServerType.RSPrimary 0 0 0,
          ServerDescription.mk ServerType.RSArbiter 0 0 0,
          ServerDescription.mk ServerType.RSSecondary 0 0 0] 10) = .ok sel' →
      ServerDescription.mk ServerType.RSArbiter 0 0 0 ∈
        sel'.server_descriptions)
    ∧ (∀ sel',
        (∃ t ∈ (Selection.mk [ServerDescription.mk ServerType.RSPrimary 0 0 0,
            ServerDescription.mk ServerType.RSArbiter 0 0 0,
            ServerDescription.mk ServerType.RSSecondary 0 0 0]
          10).server_descriptions,
          t.server_type = ServerType.RSSecondary) →
        _no_primary 30
          (Selection.mk [ServerDescription.mk ServerType.RSPrimary 0 0 0,
            ServerDescription.mk ServerType.RSArbiter 0 0 0,
            ServerDescription.mk ServerType.RSSecondary 0 0 0] 10)
          = .ok sel' →
        ServerDescription.mk ServerType.RSArbiter 0 0 0 ∈
          sel'.server_descriptions) :=
  c6_non_secondary_passthrough 30
    (Selection.mk [ServerDescription.mk ServerType.RSPrimary 0 0 0,
      ServerDescription.mk ServerType.RSArbiter 0 0 0,
      ServerDescription.mk ServerType.RSSecondary 0 0 0] 10)
    (ServerDescription.mk ServerType.RSArbiter 0 0 0)
    (by decide) (by decide)

/-- C7: Known-primary monotonicity — for `m1 ≤ m2`, when neither call
raises, every secondary kept by `_with_primary m1` is kept by
`_with_primary m2`. -/
theorem c7_with_primary_monotone (m1 m2 : Int) (h12 : m1 ≤ m2)
    (sel : Selection) (P : ServerDescription) (hP : sel.primary = some P)
    (sel1 sel2 : Selection)
    (h1 : _with_primary m1 sel = .ok sel1)
    (h2 : _with_primary m2 sel = .ok sel2)
    (s : ServerDescription) (hsec : s.server_type = ServerType.RSSecondary)
    (hs : s ∈ sel1.server_descriptions) :
    s ∈ sel2.server_descriptions := by
  obtain ⟨-, rfl⟩ := _with_primary_ok_elim m1 sel sel1 P hP h1
  obtain ⟨-, rfl⟩ := _with_primary_ok_elim m2 sel sel2 P hP h2
  simp only [Selection.with_server_descriptions, List.mem_filter, hsec,
    if_true, decide_eq_true_eq] at hs ⊢
  exact ⟨hs.1, le_trans hs.2 h12⟩

/-- Two secondaries tied on both `lastWriteDate` (0) and `lastUpdateTime`
(0) but with different `idleWritePeriod`s (0 vs 100). -/
def tieA : ServerDescription := ⟨ServerType.RSSecondary, 0, 0, 0⟩

/-- See `tieA`: the other tied secondary, with `idleWritePeriod` 100. -/
def tieB : ServerDescription := ⟨ServerType.RSSecondary, 0, 0, 100⟩

/-- A no-primary snapshot containing the two tied secondaries. -/
def tieSel : Selection := ⟨[tieA, tieB], 10⟩

/-- C8 counterexample: `tieA` and `tieB` are both secondaries of `tieSel`
tied on the maximum `lastWriteDate` and the maximum `lastUpdateTime`, yet
running the no-primary filter body with `tieA` chosen succeeds while
choosing `tieB` raises a `ConfigurationError` — the choice of `Srecent`
feeds its `idleWritePeriod` into bound validation, so tied members with
different idle-write periods give different results. -/
theorem c8_counterexample :
    (tieA ∈ tieSel.server_descriptions ∧ tieB ∈ tieSel.server_descriptions
      ∧ tieA.server_type = ServerType.RSSecondary
      ∧ tieB.server_type = ServerType.RSSecondary
      ∧ tieA.last_write_date = tieB.last_write_date
      ∧ tieA.last_update_time = tieB.last_update_time)
    ∧ _no_primary_with 15 tieSel tieA tieA = .ok (Selection.mk [tieA, tieB] 10)
    ∧ _no_primary_with 15 tieSel tieB tieB
        = .error (.ConfigurationError 100 15 10000) :=
  ⟨by decide, rfl, rfl⟩

/-- C8 (amended): tie-break independence — the choice among secondaries
tied on the maximum `lastWriteDate` (`SMax`) never affects the result, and
the choice among candidates tied on the maximum `lastUpdateTime`
(`Srecent`) does not affect the full result provided the tied candidates
share the same `idleWritePeriod` (the value validation reads); moreover,
whenever both choices raise no error, the kept member set is identical —
the filter body never reads the chosen `Srecent`, only `SMax`'s
`lastWriteDate`, so only the chosen members' values, not their identities,
enter the computation. -/
theorem c8_tie_break_independence (m : Int) (sel : Selection)
    (smax1 smax2 srecent1 srecent2 : ServerDescription)
    (h1mem : smax1 ∈ sel.server_descriptions)
    (h1sec : smax1.server_type = ServerType.RSSecondary)
    (h1top : ∀ t ∈ sel.server_descriptions,
      t.server_type = ServerType.RSSecondary →
        t.last_write_date ≤ smax1.last_write_date)
    (h2mem : smax2 ∈ sel.server_descriptions)
    (h2sec : smax2.server_type = ServerType.RSSecondary)
    (h2top : ∀ t ∈ sel.server_descriptions,
      t.server_type = ServerType.RSSecondary →
        t.last_write_date ≤ smax2.last_write_date)
    (hlut : srecent1.last_update_time = srecent2.last_update_time) :
    (srecent1.idle_write_period = srecent2.idle_write_period →
      _no_primary_with m sel smax1 srecent1
        = _no_primary_with m sel smax2 srecent2)
    ∧ ∀ sel1' sel2',
        _no_primary_with m sel smax1 srecent1 = .ok sel1' →
        _no_primary_with m sel smax2 srecent2 = .ok sel2' →
        sel1' = sel2' := by
  have hlwd : smax1.last_write_date = smax2.last_write_date :=
    le_antisymm (h2top smax1 h1mem h1sec) (h1top smax2 h2mem h2sec)
  constructor
  · intro hidle
    unfold _no_primary_with
    rw [hlwd, hidle]
  · intro sel1' sel2' h1ok h2ok
    obtain ⟨-, rfl⟩ := _no_primary_with_ok_elim m sel sel1' smax1 srecent1 h1ok
    obtain ⟨-, rfl⟩ := _no_primary_with_ok_elim m sel sel2' smax2 srecent2 h2ok
    rw [hlwd]

/-- A third secondary tied with `tieA` on `lastWriteDate` (0) and
`lastUpdateTime` (0), with `idleWritePeriod` 3: under bound 15 and
heartbeat 10 both `tieA` and `tieC` pass validation when chosen as
`Srecent`, despite their different idle-write periods. -/
def tieC : ServerDescription := ⟨ServerType.RSSecondary, 0, 0, 3⟩

/-- A no-primary snapshot with the tied secondaries `tieA` and `tieC`. -/
def tieSelC : Selection := ⟨[tieA, tieC], 10⟩

/-- Witness for amended C8 in the differing-`idleWritePeriod`, both-ok
regime: choosing `tieA` or `tieC` (idle-write periods 0 vs 3, both
validations pass under bound 15), the kept member sets coincide. -/
theorem c8_witness :
    ((tieA.idle_write_period = tieC.idle_write_period →
      _no_primary_with 15 tieSelC tieA tieA
        = _no_primary_with 15 tieSelC tieC tieC)
    ∧ ∀ sel1' sel2',
        _no_primary_with 15 tieSelC tieA tieA = .ok sel1' →
        _no_primary_with 15 tieSelC tieC tieC = .ok sel2' →
        sel1' = sel2') :=
  c8_tie_break_independence 15 tieSelC tieA tieC tieA tieC
    (by decide) (by decide) (by decide)
    (by decide) (by decide) (by decide)
    (by decide)

/-- C9: Frame — when `select` does not raise, the output has the same
`heartbeatFrequency` as the input and its member set is a subset of the
input's (immutability of the input is inherent to the functional
embedding: `select` constructs a new `Selection`). -/
theorem c9_select_frame (m : Option Int) (sel sel' : Selection)
    (hok : select m sel = .ok sel') :
    sel'.heartbeat_frequency = sel.heartbeat_frequency
    ∧ ∀ s ∈ sel'.server_descriptions, s ∈ sel.server_descriptions := by
  cases m with
  | none =>
    simp only [select, Except.ok.injEq] at hok
    subst hok
    exact ⟨rfl, fun s hs => hs⟩
  | some mv =>
    by_cases hz : mv = 0
    · subst hz
      simp [select] at hok
      subst hok
      exact ⟨rfl, fun s hs => hs⟩
    · cases hPc : sel.primary with
      | some P =>
        have hok' : _with_primary mv sel = .ok sel' := by
          simpa only [select, if_neg hz, hPc] using hok
        obtain ⟨-, rfl⟩ := _with_primary_ok_elim mv sel sel' P hPc hok'
        refine ⟨rfl, ?_⟩
        intro s hs
        simp only [Selection.with_server_descriptions] at hs
        exact (List.mem_filter.mp hs).1
      | none =>
        have hok' : _no_primary mv sel = .ok sel' := by
          simpa only [select, if_neg hz, hPc] using hok
        cases hmax : sel.secondary_with_max_last_write_date with
        | none =>
          simp only [_no_primary, hmax, Except.ok.injEq] at hok'
          subst hok'
          refine ⟨rfl, ?_⟩
          intro s hs
          simp only [Selection.with_server_descriptions] at hs
          simp at hs
        | some smax =>
          obtain ⟨srecent, hrec, -, heq⟩ := _no_primary_eq_with mv sel smax hmax
          rw [heq] at hok'
          obtain ⟨-, rfl⟩ :=
            _no_primary_with_ok_elim mv sel sel' smax srecent hok'
          refine ⟨rfl, ?_⟩
          intro s hs
          simp only [Selection.with_server_descriptions] at hs
          exact (List.mem_filter.mp hs).1

/-- Witness for C9 at a concrete snapshot: a primary and a fresh secondary
under bound 20. -/
theorem c9_witness :
    (Selection.mk [ServerDescription.mk ServerType.RSPrimary 0 0 0,
        ServerDescription.mk ServerType.RSSecondary 0 0 0]
      10).heartbeat_frequency
      = (Selection.mk [ServerDescription.mk ServerType.RSPrimary 0 0 0,
          ServerDescription.mk ServerType.RSSecondary 0 0 0]
        10).heartbeat_frequency
    ∧ ∀ s ∈ (Selection.mk [ServerDescription.mk ServerType.RSPrimary 0 0 0,
          ServerDescription.mk ServerType.RSSecondary 0 0 0]
        10).server_descriptions,
        s ∈ (Selection.mk [ServerDescription.mk ServerType.RSPrimary 0 0 0,
            ServerDescription.mk ServerType.RSSecondary 0 0 0]
          10).server_descriptions :=
  c9_select_frame (some 20)
    (Selection.mk [ServerDescription.mk ServerType.RSPrimary 0 0 0,
      ServerDescription.mk ServerType.RSSecondary 0 0 0] 10)
    (Selection.mk [ServerDescription.mk ServerType.RSPrimary 0 0 0,
      ServerDescription.mk ServerType.RSSecondary 0 0 0] 10)
    (by rfl)

/-- C10: a negative bound is not treated as disabled — with a primary or at
least one secondary present, non-negative heartbeat and idle-write periods,
`select` with a negative bound raises a `ConfigurationError` instead of
returning the input. -/
theorem c10_negative_bound_raises (m : Int) (hm : m < 0) (sel : Selection)
    (hhb : 0 ≤ sel.heartbeat_frequency)
    (hidle : ∀ s ∈ sel.server_descriptions, 0 ≤ s.idle_write_period)
    (hne : sel.primary.isSome = true
      ∨ ∃ t ∈ sel.server_descriptions,
          t.server_type = ServerType.RSSecondary) :
    ∃ a b c, select (some m) sel = .error (.ConfigurationError a b c) := by
  have hz : m ≠ 0 := by omega
  cases hPc : sel.primary with
  | some P =>
    have hPmem := primary_mem sel P hPc
    have hlt : m < sel.heartbeat_frequency + P.idle_write_period := by
      have := hidle P hPmem
      omega
    refine ⟨P.idle_write_period, m, sel.heartbeat_frequency * 1000, ?_⟩
    simp only [select, if_neg hz, hPc]
    exact _with_primary_error_of_lt m sel P hPc hlt
  | none =>
    rcases hne with hs | ⟨t, htmem, htsec⟩
    · rw [hPc] at hs
      exact absurd hs (by simp)
    · have htS : t ∈ sel.secondaries := (mem_secondaries sel t).mpr ⟨htmem, htsec⟩
      obtain ⟨smax, hmax⟩ :=
        pyMaxBy_ne_none (fun s => s.last_write_date) t sel.secondaries htS
      obtain ⟨srecent, hrec, hrsec, heq⟩ := _no_primary_eq_with m sel smax hmax
      have hrmem : srecent ∈ sel.server_descriptions :=
        ((mem_secondaries sel srecent).mp hrsec).1
      have hlt : m < sel.heartbeat_frequency + srecent.idle_write_period := by
        have := hidle srecent hrmem
        omega
      refine ⟨srecent.idle_write_period, m, sel.heartbeat_frequency * 1000, ?_⟩
      simp only [select, if_neg hz, hPc]
      rw [heq]
      simp only [_no_primary_with, (validate_error_iff m sel.heartbeat_frequency
        srecent.idle_write_period).mpr hlt]

/-- Witness for C10: a single-secondary snapshot with bound −1 raises. -/
theorem c10_witness :
    ∃ a b c, select (some (-1))
        (Selection.mk [ServerDescription.mk ServerType.RSSecondary 0 0 10] 10)
      = .error (.ConfigurationError a b c) :=
  c10_negative_bound_raises (-1) (by decide)
    (Selection.mk [ServerDescription.mk ServerType.RSSecondary 0 0 10] 10)
    (by decide) (by decide) (by decide)

/-- Witness for C7: bounds 13 ≤ 20, a secondary with staleness exactly 13
kept under both bounds. -/
theorem c7_witness :
    ServerDescription.mk ServerType.RSSecondary 3 0 0 ∈
      (Selection.mk [ServerDescription.mk ServerType.RSPrimary 0 0 0,
          ServerDescription.mk ServerType.RSSecondary 3 0 0]
        10).server_descriptions :=
  c7_with_primary_monotone 13 20 (by decide)
    (Selection.mk [ServerDescription.mk ServerType.RSPrimary 0 0 0,
      ServerDescription.mk ServerType.RSSecondary 3 0 0] 10)
    (ServerDescription.mk ServerType.RSPrimary 0 0 0) (by rfl)
    (Selection.mk [ServerDescription.mk ServerType.RSPrimary 0 0 0,
      ServerDescription.mk ServerType.RSSecondary 3 0 0] 10)
    (Selection.mk [ServerDescription.mk ServerType.RSPrimary 0 0 0,
      ServerDescription.mk ServerType.RSSecondary 3 0 0] 10)
    (by rfl) (by rfl)
    (ServerDescription.mk ServerType.RSSecondary 3 0 0) (by rfl) (by decide)
